import Mathlib

/-!
Verification of the hot-search analysis service (`hotsearch_api.py`) against its
natural-language specification.

The script is shallowly embedded as follows.

* Python `float` values are modelled as exact rationals (`ℚ`); the claims under
  scrutiny concern parsing, scaling by 10000, comparison, sorting and mean, all
  of which the source performs on values that are exact in this idealisation.
* A cell of the raw magnitude column (`热度`) is modelled by `RawInput`:
  either a null/NaN cell (`pd.isna` true) or a cell whose Python `str(...)`
  rendering is the given string.  `clean_hot_value` only inspects `pd.isna x`
  and `str(x)`, so this is a faithful interface.
* Python exceptions are modelled with `Except String`; a `.error` value is an
  exception propagating upwards, caught at the `analyze` boundary (the
  `try/except` wrapping the whole request handler).
* Character classes: the regex `[\d.]+` is modelled over ASCII digits and the
  dot (the unicode-digit corner of Python's `\d` is outside every claim), and
  `str.lower` is modelled by `Char.toLower` (ASCII case folding; CJK characters
  are fixed points for both).
-/

/-! ### Value Normalizer (`clean_hot_value`, hotsearch_api.py lines 72-83) -/

/-- A character matched by the character class of the regex `[\d.]+` used in
`clean_hot_value`: a digit or a decimal point. -/
def isNumChar (c : Char) : Bool := c.isDigit || c == '.'

/-- Scanner for `re.findall(r"[\d.]+", s)`: accumulates the current run of
digit/dot characters (in reverse) and emits each maximal run when it ends.
Structural recursion on the remaining text. -/
def findNumRunsAux : List Char → List Char → List (List Char)
  | [], acc => if acc.isEmpty then [] else [acc.reverse]
  | c :: cs, acc =>
    if isNumChar c then findNumRunsAux cs (c :: acc)
    else if acc.isEmpty then findNumRunsAux cs []
    else acc.reverse :: findNumRunsAux cs []

/-- Model of `re.findall(r"[\d.]+", s)`: the list of maximal runs of
digits/decimal points of `s`, left to right. -/
def findNumRuns (s : List Char) : List (List Char) := findNumRunsAux s []

/-- Value of a list of ASCII digit characters read in base 10. -/
def digitsToNat (ds : List Char) : Nat := ds.foldl (fun n c => 10 * n + (c.toNat - 48)) 0

/-- Whether Python `float()` accepts a string made of digits and dots: it must
contain at least one digit and at most one dot (`float(".")`, `float("1.2.3")`
raise `ValueError`). -/
def isValidFloatRun (r : List Char) : Bool :=
  r.countP (fun c => c == '.') ≤ 1 && r.any Char.isDigit

/-- Model of Python `float()` on a run of digits and dots: `none` models the
`ValueError` raised on an invalid literal, otherwise the exact rational value
`intPart.fracPart`.  Built with `mkRat` over integer arithmetic. -/
def parseFloatRun (r : List Char) : Option ℚ :=
  if isValidFloatRun r then
    let fp := (r.dropWhile (fun c => c != '.')).drop 1
    some (mkRat (digitsToNat (r.filter (fun c => c != '.'))) (10 ^ fp.length))
  else none

/-- A raw magnitude cell as observed by `clean_hot_value`: a null/NaN cell, or
any cell whose `str(...)` rendering is `s` (strings render as themselves,
numbers as their decimal rendering). -/
inductive RawInput
  | null
  | str (s : String)
deriving DecidableEq

/-- Decidable equality for `Except`, used to evaluate the embedding on concrete
inputs. -/
instance {ε α : Type} [DecidableEq ε] [DecidableEq α] : DecidableEq (Except ε α) := fun x y =>
  match x, y with
  | .ok a, .ok b =>
    if h : a = b then isTrue (by rw [h]) else isFalse (fun hc => h (Except.ok.inj hc))
  | .error a, .error b =>
    if h : a = b then isTrue (by rw [h]) else isFalse (fun hc => h (Except.error.inj hc))
  | .ok _, .error _ => isFalse (fun hc => Except.noConfusion hc)
  | .error _, .ok _ => isFalse (fun hc => Except.noConfusion hc)

/-- Embedding of `clean_hot_value` (lines 72-83): null yields 0, no digit/dot
run yields 0, otherwise the first run is parsed by `float` (which can raise,
modelled by `.error`) and multiplied by 10000 when the string contains the
ten-thousand marker `万`. -/
def clean_hot_value : RawInput → Except String ℚ
  | .null => .ok 0
  | .str s =>
    match findNumRuns s.data with
    | [] => .ok 0
    | r :: _ =>
      match parseFloatRun r with
      | some v => .ok (if s.data.contains '万' then v * 10000 else v)
      | none => .error ("ValueError: could not convert string to float: " ++ s)

/-! ### Records and the fetch layer (lines 13-18, 41-53, 86-99)

The script defines `load_data` twice; Python executes the module top to bottom,
so the second definition (lines 86-99, calling `pd.read_excel` directly) is the
one bound when `analyze` runs.  The first definition (lines 55-67) and
`fetch_excel` (lines 41-53, with the SSL-fallback) are dead code.  Both are
embedded so that claims about either path can be stated. -/

/-- One row of a fetched table, with the columns the pipeline reads: the title
column `标题` (`none` models a missing/NaN cell) and the raw magnitude column
`热度`. -/
structure RawRecord where
  title : Option String
  hot : RawInput
deriving DecidableEq

/-- A row after the merger has written the source platform into the `平台`
column. -/
structure TaggedRecord where
  platform : String
  title : Option String
  hot : RawInput
deriving DecidableEq

/-- A row after `clean_hot_value` has replaced the raw magnitude by its
numeric value. -/
structure CleanRecord where
  platform : String
  title : Option String
  hot : ℚ
deriving DecidableEq

/-- Outcome of one transport attempt (`SESSION.get`/`pd.read_excel` of a URL,
including status check and sheet parsing): a row table, an
`requests.exceptions.SSLError`, or any other exception. -/
inductive FetchOutcome
  | ok (rows : List RawRecord)
  | sslError (msg : String)
  | otherError (msg : String)
deriving DecidableEq

/-- Embedding of `fetch_excel` (lines 41-53), parametric in the transport
`get verify url`.  A first attempt with verification on; on an `SSLError`
exactly one retry with `verify=False` whose own failure propagates raw (an
exception raised inside an `except` handler is not caught by the later
`except Exception` clause); any other failure is wrapped in a `RuntimeError`.
This function is dead code in the script: the second `load_data` shadows the
only caller of the first. -/
def fetch_excel (get : Bool → String → FetchOutcome) (url : String) : Except String (List RawRecord) :=
  match get true url with
  | .ok rows => .ok rows
  | .sslError _ =>
    match get false url with
    | .ok rows => .ok rows
    | .sslError m => .error m
    | .otherError m => .error m
  | .otherError m => .error ("读取远程文件失败: " ++ url ++ " (" ++ m ++ ")")

/-- Embedding of a direct `pd.read_excel(url)` call as performed by the
effective `load_data` (lines 90 and 95): one attempt with default (verified)
transport; every failure, SSL validation failures included, propagates as an
exception with no fallback. -/
def pd_read_excel (get : Bool → String → FetchOutcome) (url : String) : Except String (List RawRecord) :=
  match get true url with
  | .ok rows => .ok rows
  | .sslError m => .error m
  | .otherError m => .error m

/-- The module-level source table `platform_files` (lines 13-17), an
insertion-ordered dict mapping each platform name to its URL. -/
def platform_files : List (String × String) :=
  [("weibo", "https://raw.githubusercontent.com/ruining1030-droid/hotsearch-data/main/weibo_hotsearch.xlsx"),
   ("toutiao", "https://raw.githubusercontent.com/ruining1030-droid/hotsearch-data/main/toutiao_hotsearch.xlsx"),
   ("baidu", "https://raw.githubusercontent.com/ruining1030-droid/hotsearch-data/main/baidu_hotsearch.xlsx")]

/-- Tagging `df["平台"] = p`: every row of the table gets `p` in its platform
column. -/
def tagRows (p : String) (rows : List RawRecord) : List TaggedRecord :=
  rows.map (fun r => ⟨p, r.title, r.hot⟩)

/-- The `for p, path in platform_files.items()` loop of `load_data`
(lines 94-97): fetches each platform in table order, tags its rows, and
collects the per-platform tables; the first exception aborts the loop. -/
def load_all (read_excel : String → Except String (List RawRecord)) :
    List (String × String) → Except String (List (List TaggedRecord))
  | [] => .ok []
  | pu :: rest =>
    match read_excel pu.2 with
    | .error e => .error e
    | .ok rows =>
      match load_all read_excel rest with
      | .error e => .error e
      | .ok ts => .ok (tagRows pu.1 rows :: ts)

/-- Embedding of the effective `load_data` (lines 86-99), parametric in the
table reader.  A known platform name selects exactly its URL; any other
selector (`"all"` included) loads every platform in table order; the tagged
tables are concatenated by `pd.concat(dfs, ignore_index=True)`. -/
def load_data (read_excel : String → Except String (List RawRecord)) (platform : String) :
    Except String (List TaggedRecord) :=
  match platform_files.lookup platform with
  | some url =>
    match read_excel url with
    | .error e => .error e
    | .ok rows => .ok (tagRows platform rows)
  | none =>
    match load_all read_excel platform_files with
    | .error e => .error e
    | .ok dfs => .ok dfs.flatten

/-! ### Query Engine (`analyze` lines 119-129) -/

/-- Row-by-row application `df["热度"].apply(clean_hot_value)` (line 121): the
first raised `ValueError` aborts the whole request. -/
def clean_records : List TaggedRecord → Except String (List CleanRecord)
  | [] => .ok []
  | r :: rest =>
    match clean_hot_value r.hot with
    | .error e => .error e
    | .ok v =>
      match clean_records rest with
      | .error e => .error e
      | .ok vs => .ok (⟨r.platform, r.title, v⟩ :: vs)

/-- The row filter `df[df["热度"] > 0]` (line 122). -/
def positive_filter (df : List CleanRecord) : List CleanRecord :=
  df.filter (fun r => decide (0 < r.hot))

/-- Rendering of a title cell by `.astype(str)` (line 126): a missing/NaN cell
becomes the string `"nan"`, a string cell stays itself. -/
def astype_str : Option String → String
  | none => "nan"
  | some t => t

/-- Lower-cased character list of a string, modelling Python case-insensitive
matching (ASCII case folding). -/
def lowerChars (s : String) : List Char := s.data.map Char.toLower

/-- Whether `p` is an initial segment of `l`. -/
def strStartsWith : List Char → List Char → Bool
  | [], _ => true
  | _ :: _, [] => false
  | a :: as, b :: bs => a == b && strStartsWith as bs

/-- Whether `p` occurs contiguously inside `l`. -/
def strHasSub (p : List Char) : List Char → Bool
  | [] => p.isEmpty
  | c :: cs => strStartsWith p (c :: cs) || strHasSub p cs

/-- Model of `Series.str.contains(topic, case=False, na=False)` (line 126) on a
cell already rendered by `astype(str)`.  `str.contains` compiles `topic` as a
regular expression with `re.IGNORECASE`; for topics free of regex
metacharacters — the only ones the spec discusses — this is case-insensitive
substring search, modelled by lower-casing both sides.  `na=False` is vacuous
after `astype(str)`: no cell is NaN any more. -/
def contains_ci (hay pat : String) : Bool := strHasSub (lowerChars pat) (lowerChars hay)

/-- The topic filter (lines 125-126): skipped for the empty topic (`if topic:`),
otherwise keeps the rows whose `astype(str)`-rendered title matches. -/
def topic_filter (topic : String) (df : List CleanRecord) : List CleanRecord :=
  if topic = "" then df
  else df.filter (fun r => contains_ci (astype_str r.title) topic)

/-- Key order used by the sort: weakly increasing magnitude. -/
def hotLE (a b : CleanRecord) : Prop := a.hot ≤ b.hot

instance : DecidableRel hotLE := fun a b => inferInstanceAs (Decidable (a.hot ≤ b.hot))

instance : IsTotal CleanRecord hotLE := ⟨fun a b => le_total a.hot b.hot⟩

instance : IsTrans CleanRecord hotLE := ⟨fun _ _ _ h h' => le_trans h h'⟩

/-- Embedding of `df.sort_values("热度", ascending=False)` (line 129).  For
`ascending=False`, pandas' `nargsort` reverses the values and their index array
BEFORE taking the ascending argsort and reverses the resulting indexer again
afterwards (a double reversal, pandas GH-6399): the net effect is reverse,
ascending argsort, reverse.  The ascending argsort itself is modelled by a
stable ascending sort; this is exact whenever numpy's argsort is stable — in
particular on the small arrays evaluated here, where the default introsort
degenerates to insertion sort — while for large arrays the default
`kind="quicksort"` makes no stability promise, so tie order is then
implementation happenstance which this embedding does not decide. -/
def sort_desc (df : List CleanRecord) : List CleanRecord :=
  (List.insertionSort hotLE df.reverse).reverse

/-- The Query View: everything `analyze` does to the merged table before the
intent dispatch — normalize (done in `clean_records`), drop non-positive rows,
filter by topic, sort descending (lines 121-129). -/
def query_view (topic : String) (df : List CleanRecord) : List CleanRecord :=
  sort_desc (topic_filter topic (positive_filter df))

/-! ### The `analyze` request handler (lines 103-160) -/

/-- The request fields read by `analyze` (lines 113-117), after JSON decoding
and the `int(...)` conversion of `limit`; each field carries its
`data.get(...)` default when absent. -/
structure Request where
  intent : String
  platform : String
  topic : String
  time_period : String
  limit : Int
deriving DecidableEq

/-- The JSON payloads `analyze` can return: a raw data listing
(`{"message", "data"}`), a report (`{"message", "raw_text"}`), or a structured
error object (`{"error"}`) — the latter produced both by the unknown-intent
branch and by the boundary `except` clause. -/
inductive Response
  | data (message : String) (rows : List (String × Option String × ℚ))
  | report (message : String) (raw_text : String)
  | error (msg : String)
deriving DecidableEq

/-- Python's `x or default` for strings: the default when `x` is empty. -/
def orDefault (s d : String) : String := if s = "" then d else s

/-- The message of the `fetch_data` branch (line 137). -/
def fetch_message (req : Request) (n : Nat) : String :=
  orDefault req.time_period ("最近") ++ "关于" ++ orDefault req.topic ("全部") ++
    "的热搜数据（共 " ++ toString n ++ " 条）："

/-- Python `int()` truncation of a float toward zero. -/
def pyInt (q : ℚ) : Int := if 0 ≤ q then ⌊q⌋ else ⌈q⌉

/-- Arithmetic mean of a column, as computed by `Series.mean()`. -/
def listMean (l : List ℚ) : ℚ := l.sum / l.length

/-- Model of `", ".join(titles)` over raw title cells: joining raises a
`TypeError` when a cell is a non-string (a NaN float), which the boundary
handler turns into an error response. -/
def join_titles : List (Option String) → Except String String
  | ts =>
    match ts.mapM (fun t => t) with
    | some l => .ok (String.intercalate (", ") l)
    | none => .error ("TypeError: sequence item: expected str instance, float found")

/-- The report sentence built on lines 147-150. -/
def report_text (req : Request) (mean_hot : Int) (joined : String) : String :=
  "在" ++ orDefault req.time_period ("最近") ++ "，" ++ orDefault req.platform ("全平台") ++
    "热搜的平均热度约为 " ++ toString mean_hot ++ "。主要热门话题包括：" ++ joined ++ " 等。"

/-- The `df.head(limit)` truncation of the `fetch_data` branch (lines 133-134),
applied only when `limit > 0`. -/
def limit_rows (limit : Int) (view : List CleanRecord) : List CleanRecord :=
  if 0 < limit then view.take limit.toNat else view

/-- The intent dispatch of `analyze` (lines 132-157) on the computed view.
`fetch_data` truncates to `limit` rows when `limit > 0` and lists the three
projected columns; `generate_report` always works on the first 10 rows of the
view — `limit` is not consulted — and returns the fixed no-data response on an
empty head; any other intent yields the structured unknown-intent error. -/
def dispatch (req : Request) (view : List CleanRecord) : Except String Response :=
  if req.intent = "fetch_data" then
    .ok (.data (fetch_message req (limit_rows req.limit view).length)
      ((limit_rows req.limit view).map (fun r => (r.platform, r.title, r.hot))))
  else if req.intent = "generate_report" then
    if (view.take 10).isEmpty then .ok (.report ("无数据生成报告。") (""))
    else
      match join_titles (((view.take 10).map (fun r => r.title)).take 5) with
      | .error e => .error e
      | .ok joined =>
        .ok (.report ("生成趋势分析报告成功")
          (report_text req (pyInt (listMean ((view.take 10).map (fun r => r.hot)))) joined))
  else .ok (.error ("未知的 intent: " ++ req.intent))

/-- The data-loading and view-building prefix of `analyze` (lines 119-129):
merge, normalize, filter, sort; any exception propagates. -/
def run_pipeline (read_excel : String → Except String (List RawRecord)) (req : Request) :
    Except String (List CleanRecord) :=
  match load_data read_excel req.platform with
  | .error e => .error e
  | .ok df0 =>
    match clean_records df0 with
    | .error e => .error e
    | .ok df1 => .ok (query_view req.topic df1)

/-- Embedding of the whole request handler `analyze` (lines 103-160): the
pipeline and dispatch run inside `try:`, and the boundary `except Exception`
turns any exception into the structured `{"error": str(e)}` response. -/
def analyze (read_excel : String → Except String (List RawRecord)) (req : Request) : Response :=
  match run_pipeline read_excel req with
  | .error e => .error e
  | .ok view =>
    match dispatch req view with
    | .error e => .error e
    | .ok resp => resp

/-! ### Concrete environments used to evaluate the embedding -/

/-- A reader environment in which every URL yields the same two well-formed
rows. -/
def envA : String → Except String (List RawRecord) := fun _ =>
  .ok [⟨some ("A"), .str ("5")⟩, ⟨some ("B"), .str ("3")⟩]

/-- A reader environment in which every URL yields an empty table. -/
def envEmpty : String → Except String (List RawRecord) := fun _ => .ok []

/-- A reader environment in which every URL fails with a generic exception. -/
def envFail : String → Except String (List RawRecord) := fun _ =>
  .error ("读取远程文件失败")

/-- A transport in which every verified request fails SSL validation while the
unverified fallback succeeds. -/
def env7 : Bool → String → FetchOutcome := fun verify _ =>
  if verify then .sslError ("certificate verify failed") else .ok [⟨some ("A"), .str ("5")⟩]

/-- Per-URL row tables of different sizes, to exercise the merger. -/
def rowsW : String → List RawRecord := fun url =>
  if url = "https://raw.githubusercontent.com/ruining1030-droid/hotsearch-data/main/weibo_hotsearch.xlsx" then
    [⟨some ("A"), .str ("5万")⟩, ⟨some ("B"), .str ("abc")⟩]
  else if url = "https://raw.githubusercontent.com/ruining1030-droid/hotsearch-data/main/toutiao_hotsearch.xlsx" then
    [⟨some ("AB"), .str ("12000")⟩]
  else []

/-! ### Helper lemmas -/

/-- A parsed float literal made of digits and dots is non-negative: there is no
sign in the character class. -/
theorem parseFloatRun_nonneg : ∀ (r : List Char) (v : ℚ), parseFloatRun r = some v → 0 ≤ v := by
  intro r v h
  unfold parseFloatRun at h
  split at h
  · rw [Option.some.injEq] at h
    rw [← h, Rat.mkRat_eq_div]
    exact div_nonneg (by positivity) (by positivity)
  · exact absurd h (by simp)

/-- A `parseFloatRun` failure means the run was not a valid float literal. -/
theorem parseFloatRun_none : ∀ r : List Char, parseFloatRun r = none → isValidFloatRun r = false := by
  intro r h
  unfold parseFloatRun at h
  split at h
  · exact absurd h (by simp)
  · rename_i hv
    exact Bool.not_eq_true _ ▸ eq_false_of_ne_true hv

/-- Every tagged row carries the platform it was tagged with. -/
theorem tagRows_platform : ∀ (p : String) (rows : List RawRecord) (r : TaggedRecord),
    r ∈ tagRows p rows → r.platform = p := by
  intro p rows r h
  obtain ⟨x, _, hx⟩ := List.mem_map.mp h
  rw [← hx]

/-- Tagging does not change the number of rows. -/
theorem tagRows_length : ∀ (p : String) (rows : List RawRecord),
    (tagRows p rows).length = rows.length := by
  intro p rows
  exact List.length_map rows _

/-- When every source in the table loads, the per-platform loop returns the
tagged tables in table order. -/
theorem load_all_ok : ∀ (re : String → Except String (List RawRecord))
    (rows : String → List RawRecord) (l : List (String × String)),
    (∀ pu ∈ l, re pu.2 = .ok (rows pu.2)) →
    load_all re l = .ok (l.map (fun pu => tagRows pu.1 (rows pu.2))) := by
  intro re rows l h
  induction l with
  | nil => rfl
  | cons pu rest ih =>
    simp only [load_all]
    rw [h pu (by simp), ih (fun q hq => h q (by simp [hq]))]
    simp

/-- The descending sort really is descending: each row weakly dominates every
later one. -/
theorem sort_desc_sorted : ∀ l : List CleanRecord,
    List.Sorted (fun a b => hotLE b a) (sort_desc l) := by
  intro l
  unfold sort_desc
  rw [List.Sorted, List.pairwise_reverse]
  exact List.sorted_insertionSort hotLE l.reverse

/-- The descending sort permutes its input. -/
theorem sort_desc_perm : ∀ l : List CleanRecord, (sort_desc l).Perm l :=
  fun l => ((List.reverse_perm _).trans (List.perm_insertionSort hotLE l.reverse)).trans
    (List.reverse_perm l)

/-- Rows surviving the topic filter come from the input table. -/
theorem mem_topic_filter : ∀ (topic : String) (df : List CleanRecord) (r : CleanRecord),
    r ∈ topic_filter topic df → r ∈ df := by
  intro topic df r h
  unfold topic_filter at h
  split at h
  · exact h
  · exact (List.mem_filter.mp h).1

/-- Every row of a query view has positive magnitude. -/
theorem mem_query_view_pos : ∀ (topic : String) (df : List CleanRecord) (r : CleanRecord),
    r ∈ query_view topic df → 0 < r.hot := by
  intro topic df r h
  unfold query_view at h
  have h1 := (sort_desc_perm _).mem_iff.mp h
  have h2 := mem_topic_filter _ _ _ h1
  exact of_decide_eq_true (List.mem_filter.mp h2).2

/-- A successful pipeline run produces a query view of some normalized table. -/
theorem run_pipeline_ok_shape : ∀ (env : String → Except String (List RawRecord))
    (req : Request) (view : List CleanRecord), run_pipeline env req = .ok view →
    ∃ df1, view = query_view req.topic df1 := by
  intro env req view h
  unfold run_pipeline at h
  split at h
  · exact absurd h (by simp)
  · split at h
    · exact absurd h (by simp)
    · exact ⟨_, (Except.ok.inj h).symm⟩

/-- A pipeline exception reaches the caller as the structured error response. -/
theorem analyze_pipeline_error : ∀ env req e, run_pipeline env req = .error e →
    analyze env req = .error e := by
  intro env req e h
  simp [analyze, h]

/-- On a successful pipeline run, `analyze` answers with the dispatch result. -/
theorem analyze_dispatch_ok : ∀ env req view resp, run_pipeline env req = .ok view →
    dispatch req view = .ok resp → analyze env req = resp := by
  intro env req view resp h hd
  simp [analyze, h, hd]

/-- An exception raised during dispatch reaches the caller as the structured
error response. -/
theorem analyze_dispatch_error : ∀ env req view e, run_pipeline env req = .ok view →
    dispatch req view = .error e → analyze env req = .error e := by
  intro env req view e h hd
  simp [analyze, h, hd]

/-- Each row listed by a `fetch_data` response is the projection of a view row. -/
theorem dispatch_data_inv : ∀ (req : Request) (view : List CleanRecord) (msg : String)
    (rows : List (String × Option String × ℚ)), dispatch req view = .ok (.data msg rows) →
    ∀ t ∈ rows, ∃ r ∈ view, t = (r.platform, r.title, r.hot) := by
  intro req view msg rows h t ht
  unfold dispatch at h
  split at h
  · rw [Except.ok.injEq, Response.data.injEq] at h
    rw [← h.2] at ht
    obtain ⟨r, hr, hrt⟩ := List.mem_map.mp ht
    refine ⟨r, ?_, hrt.symm⟩
    by_cases hl : 0 < req.limit
    · simp only [limit_rows, if_pos hl] at hr
      exact List.take_subset _ _ hr
    · simp only [limit_rows, if_neg hl] at hr
      exact hr
  · split at h
    · split at h
      · exact absurd (Except.ok.inj h) (by simp)
      · split at h
        · exact absurd h (by simp)
        · exact absurd (Except.ok.inj h) (by simp)
    · exact absurd (Except.ok.inj h) (by simp)

/-- Boolean initial-segment test agrees with the existence of a tail. -/
theorem strStartsWith_iff : ∀ p l : List Char, strStartsWith p l = true ↔ ∃ t, l = p ++ t := by
  intro p
  induction p with
  | nil =>
    intro l
    simp [strStartsWith]
  | cons a as ih =>
    intro l
    cases l with
    | nil =>
      simp [strStartsWith]
    | cons b bs =>
      simp only [strStartsWith, Bool.and_eq_true, beq_iff_eq, ih bs, List.cons_append,
        List.cons.injEq]
      constructor
      · rintro ⟨hab, t, ht⟩
        exact ⟨t, hab.symm, ht⟩
      · rintro ⟨t, hab, ht⟩
        exact ⟨hab.symm, t, ht⟩

/-- Boolean contiguous-substring test agrees with the existence of a
decomposition around the pattern. -/
theorem strHasSub_iff : ∀ (p l : List Char), strHasSub p l = true ↔ ∃ s t, l = s ++ p ++ t := by
  intro p l
  induction l with
  | nil =>
    simp only [strHasSub, List.isEmpty_iff]
    constructor
    · intro h
      exact ⟨[], [], by simp [h]⟩
    · rintro ⟨s, t, ht⟩
      rcases List.append_eq_nil.mp (List.append_eq_nil.mp ht.symm).1 with ⟨_, hp⟩
      exact hp
  | cons c cs ih =>
    simp only [strHasSub, Bool.or_eq_true, strStartsWith_iff, ih]
    constructor
    · rintro (⟨t, ht⟩ | ⟨s, t, ht⟩)
      · exact ⟨[], t, by simp [ht]⟩
      · exact ⟨c :: s, t, by simp [ht]⟩
    · rintro ⟨s, t, ht⟩
      cases s with
      | nil =>
        exact Or.inl ⟨t, by simpa using ht⟩
      | cons c' s' =>
        rw [List.cons_append, List.cons_append, List.cons.injEq] at ht
        exact Or.inr ⟨s', t, ht.2⟩

/-! ### Claims C1 and C2 — the Value Normalizer -/

/-- Claim C1, counterexample.  The claim quantifies over every input whose
string form contains the scale marker and has a digit/dot run; `"1.2.3万"` is
such an input (marker present, first run `1.2.3`), yet `clean_hot_value` does
not return any normalized value at all: `float("1.2.3")` raises `ValueError`,
so no value — let alone `10000` times a parsed run — is produced. -/
theorem clean_scale_invalid_run_raises :
    clean_hot_value (.str ("1.2.3万")) =
      .error ("ValueError: could not convert string to float: " ++ "1.2.3万") ∧
    ("1.2.3万").data.contains '万' = true ∧
    findNumRuns ("1.2.3万").data = [['1', '.', '2', '.', '3']] :=
  ⟨by decide, by decide, by decide⟩

/-- Claim C1, amended.  For every raw magnitude input whose string form
contains the ten-thousand marker and whose FIRST digit/dot run is a valid
float literal, the normalized value is 10000 times the parsed first run. -/
theorem clean_scale_marker_mul10000 : ∀ (s : String) (r : List Char)
    (rest : List (List Char)) (v : ℚ),
    s.data.contains '万' = true →
    findNumRuns s.data = r :: rest →
    parseFloatRun r = some v →
    clean_hot_value (.str s) = .ok (v * 10000) := by
  intro s r rest v hw hruns hv
  simp only [clean_hot_value, hruns, hv, hw]
  simp

/-- Claim C1 witness: the spec's own example, `"3.5万"` normalizing to
`3.5 × 10000 = 35000`. -/
theorem clean_scale_marker_mul10000_witness :
    clean_hot_value (.str ("3.5万")) = .ok (mkRat 35 10 * 10000) ∧
    mkRat 35 10 * 10000 = 35000 :=
  ⟨clean_scale_marker_mul10000 ("3.5万") (['3', '.', '5']) ([]) (mkRat 35 10)
      (by decide) (by decide) (by decide),
   by rw [Rat.mkRat_eq_div]; norm_num⟩

/-- Claim C2, counterexample.  The claim says `clean_hot_value` never raises on
any input whatsoever; on the string `"."` the regex finds the run `"."` and
`float(".")` raises a `ValueError` that escapes the function (it is only caught
later, at the `analyze` boundary). -/
theorem clean_dot_input_raises :
    clean_hot_value (.str (".")) =
      .error ("ValueError: could not convert string to float: " ++ ".") := by
  decide

/-- Claim C2, amended.  `clean_hot_value` returns `0` on null input and on
inputs without a digit/dot run, every value it returns is non-negative, and the
only inputs on which it raises instead of returning are strings whose first
digit/dot run is not a valid float literal (no digit, or several dots). -/
theorem clean_total_nonneg :
    (clean_hot_value .null = .ok 0) ∧
    (∀ s : String, findNumRuns s.data = [] → clean_hot_value (.str s) = .ok 0) ∧
    (∀ (inp : RawInput) (v : ℚ), clean_hot_value inp = .ok v → 0 ≤ v) ∧
    (∀ s e : String, clean_hot_value (.str s) = .error e →
      ∃ r rest, findNumRuns s.data = r :: rest ∧ isValidFloatRun r = false) := by
  refine ⟨rfl, ?_, ?_, ?_⟩
  · intro s h
    simp [clean_hot_value, h]
  · intro inp v h
    cases inp with
    | null =>
      rw [← Except.ok.inj h]
    | str s =>
      simp only [clean_hot_value] at h
      cases hr : findNumRuns s.data with
      | nil =>
        simp only [hr] at h
        rw [← Except.ok.inj h]
      | cons r rest =>
        simp only [hr] at h
        cases hp : parseFloatRun r with
        | none =>
          simp only [hp] at h
          exact absurd h (by simp)
        | some w =>
          simp only [hp] at h
          have hw := parseFloatRun_nonneg r w hp
          rw [← Except.ok.inj h]
          split
          · exact mul_nonneg hw (by norm_num)
          · exact hw
  · intro s e h
    simp only [clean_hot_value] at h
    cases hr : findNumRuns s.data with
    | nil =>
      simp only [hr] at h
      exact absurd h (by simp)
    | cons r rest =>
      simp only [hr] at h
      cases hp : parseFloatRun r with
      | none =>
        exact ⟨r, rest, rfl, parseFloatRun_none r hp⟩
      | some w =>
        simp only [hp] at h
        exact absurd h (by simp)

/-- Claim C2 witness: a parseable input, with its non-negative return value. -/
theorem clean_total_nonneg_witness : (0 : ℚ) ≤ mkRat 5 1 :=
  clean_total_nonneg.2.2.1 (.str ("5")) (mkRat 5 1) (by decide)

/-! ### Claims C4 and C5 — the Query Engine -/

/-- Claim C4 (confirmed).  Whenever `analyze` returns a data listing, every
listed row has strictly positive magnitude: rows are filtered by
`df[df["热度"] > 0]` before any view is built, and the later stages only
permute or drop rows. -/
theorem analyze_data_rows_positive : ∀ (env : String → Except String (List RawRecord))
    (req : Request) (msg : String) (rows : List (String × Option String × ℚ)),
    analyze env req = .data msg rows → ∀ t ∈ rows, 0 < t.2.2 := by
  intro env req msg rows h t ht
  unfold analyze at h
  split at h
  · exact absurd h (by simp)
  · rename_i view hp
    split at h
    · exact absurd h (by simp)
    · rename_i resp hd
      rw [h] at hd
      obtain ⟨r, hr, hrt⟩ := dispatch_data_inv req view msg rows hd t ht
      obtain ⟨df1, hv⟩ := run_pipeline_ok_shape env req view hp
      rw [hv] at hr
      rw [hrt]
      exact mem_query_view_pos req.topic df1 r hr

/-- Claim C4 witness: a concrete two-row fetch whose listing magnitudes are
positive. -/
theorem analyze_data_rows_positive_witness :
    (0 : ℚ) < ((("weibo", some ("A"), mkRat 5 1)) : String × Option String × ℚ).2.2 :=
  analyze_data_rows_positive envA (⟨"fetch_data", "weibo", "", "", 0⟩)
    (fetch_message (⟨"fetch_data", "weibo", "", "", 0⟩) 2)
    ([("weibo", some ("A"), mkRat 5 1), ("weibo", some ("B"), mkRat 3 1)])
    (by decide) (("weibo", some ("A"), mkRat 5 1)) (by decide)

/-- Claim C5, counterexample.  A record with a MISSING title is retained by the
topic filter for topic `"nan"`: `.astype(str)` renders the missing cell as the
string `"nan"`, which contains the topic, so missing titles are not treated as
non-matching as the claim requires. -/
theorem topic_filter_missing_title_matches :
    topic_filter ("nan") ([⟨"weibo", none, 5⟩]) = [⟨"weibo", none, 5⟩] ∧
    (⟨"weibo", none, (5 : ℚ)⟩ : CleanRecord) ∈ topic_filter ("nan") ([⟨"weibo", none, 5⟩]) :=
  ⟨by decide, by decide⟩

/-- Claim C5, amended.  For a non-empty topic the filter retains exactly the
records whose `astype(str)`-rendered title (the literal string `"nan"` for a
missing title, which therefore CAN match) contains the topic case-insensitively
as a contiguous substring. -/
theorem topic_filter_membership : ∀ (topic : String) (df : List CleanRecord) (r : CleanRecord),
    topic ≠ "" →
    (r ∈ topic_filter topic df ↔
      r ∈ df ∧ ∃ pre post, lowerChars (astype_str r.title) = pre ++ lowerChars topic ++ post) := by
  intro topic df r ht
  simp only [topic_filter, if_neg ht, List.mem_filter, contains_ci]
  rw [strHasSub_iff]

/-- Claim C5 witness: the spec's example — topic `"news"` matches the title
`"Breaking NEWS Today"` case-insensitively. -/
theorem topic_filter_membership_witness :
    (⟨"weibo", some ("Breaking NEWS Today"), 5⟩ : CleanRecord) ∈
      topic_filter ("news") ([⟨"weibo", some ("Breaking NEWS Today"), 5⟩]) :=
  (topic_filter_membership ("news") ([⟨"weibo", some ("Breaking NEWS Today"), 5⟩])
      (⟨"weibo", some ("Breaking NEWS Today"), 5⟩) (by decide)).mpr
    ⟨by decide, ("breaking ").data, (" today").data, by decide⟩

/-! ### Claims C6 and C7 — the Dataset Merger and the fetch path -/

/-- Claim C6 (confirmed).  When every source loads: a selector naming a known
platform loads exactly that platform's URL and tags every resulting row with
it; `"all"` is not a key of the table, and any unrecognized selector loads
every platform in table order, concatenating the tagged tables in that order,
so the merged size is the sum of the per-platform row counts and every row
carries the platform it came from. -/
theorem load_data_merges :
    ∀ (read_excel : String → Except String (List RawRecord)) (rows : String → List RawRecord),
    (∀ url, read_excel url = .ok (rows url)) →
    (platform_files.lookup ("all") = none) ∧
    (∀ p url, platform_files.lookup p = some url →
      load_data read_excel p = .ok (tagRows p (rows url)) ∧
      (tagRows p (rows url)).length = (rows url).length ∧
      ∀ r ∈ tagRows p (rows url), r.platform = p) ∧
    (∀ p, platform_files.lookup p = none →
      load_data read_excel p =
        .ok ((platform_files.map (fun pu => tagRows pu.1 (rows pu.2))).flatten) ∧
      ((platform_files.map (fun pu => tagRows pu.1 (rows pu.2))).flatten).length =
        (platform_files.map (fun pu => (rows pu.2).length)).sum ∧
      ∀ pu ∈ platform_files, ∀ r ∈ tagRows pu.1 (rows pu.2), r.platform = pu.1) := by
  intro read_excel rows h
  refine ⟨by decide, ?_, ?_⟩
  · intro p url hp
    refine ⟨?_, tagRows_length _ _, fun r hr => tagRows_platform _ _ _ hr⟩
    unfold load_data
    rw [hp]
    simp only [h url]
  · intro p hp
    refine ⟨?_, ?_, fun pu _ r hr => tagRows_platform _ _ _ hr⟩
    · unfold load_data
      rw [hp]
      simp only [load_all_ok read_excel rows platform_files (fun pu _ => h pu.2)]
    · rw [List.length_flatten, List.map_map]
      congr 1
      simp [Function.comp, tagRows]

/-- Claim C6 witness: merging `"all"` with per-source row counts 2, 1, 0 gives
the concatenated table of size 3. -/
theorem load_data_merges_witness :
    load_data (fun url => .ok (rowsW url)) ("all") =
      .ok ((platform_files.map (fun pu => tagRows pu.1 (rowsW pu.2))).flatten) ∧
    ((platform_files.map (fun pu => tagRows pu.1 (rowsW pu.2))).flatten).length = 3 :=
  ⟨((load_data_merges (fun url => .ok (rowsW url)) rowsW (fun _ => rfl)).2.2 ("all")
      (by decide)).1,
   by decide⟩

/-- Claim C7, counterexample.  An environment in which every verified request
fails SSL validation while the unverified retry would succeed: the dead
`fetch_excel` would indeed recover, but the pipeline (`analyze` calls the
second `load_data`, which calls `pd.read_excel` directly) makes no fallback
attempt and the SSL failure propagates, so the claim is false of the fetch
path actually used. -/
theorem pipeline_no_ssl_fallback :
    fetch_excel env7
        ("https://raw.githubusercontent.com/ruining1030-droid/hotsearch-data/main/weibo_hotsearch.xlsx") =
      .ok [⟨some ("A"), .str ("5")⟩] ∧
    load_data (pd_read_excel env7) ("weibo") = .error ("certificate verify failed") ∧
    analyze (pd_read_excel env7) (⟨"fetch_data", "weibo", "", "", 0⟩) =
      .error ("certificate verify failed") :=
  ⟨by decide, by decide, by decide⟩

/-- Claim C7, amended.  The one-retry-with-verification-disabled behaviour
lives only in the shadowed dead `fetch_excel`: there, after an SSL failure,
exactly one unverified attempt decides the outcome (its own failure propagates
with no further retry); the fetch path the pipeline actually uses
(`pd.read_excel`) surfaces the SSL failure with no fallback at all. -/
theorem fetch_excel_ssl_fallback : ∀ (get : Bool → String → FetchOutcome) (url m : String),
    get true url = .sslError m →
    (∀ rows, get false url = .ok rows → fetch_excel get url = .ok rows) ∧
    (∀ m2, get false url = .sslError m2 → fetch_excel get url = .error m2) ∧
    pd_read_excel get url = .error m := by
  intro get url m h
  refine ⟨?_, ?_, ?_⟩
  · intro rows h2
    simp [fetch_excel, h, h2]
  · intro m2 h2
    simp [fetch_excel, h, h2]
  · simp [pd_read_excel, h]

/-- Claim C7 witness: the dead fallback recovering, and the live path failing,
on the same concrete transport. -/
theorem fetch_excel_ssl_fallback_witness :
    fetch_excel env7 ("u") = .ok [⟨some ("A"), .str ("5")⟩] ∧
    pd_read_excel env7 ("u") = .error ("certificate verify failed") :=
  ⟨(fetch_excel_ssl_fallback env7 ("u") ("certificate verify failed") (by decide)).1
      ([⟨some ("A"), .str ("5")⟩]) (by decide),
   (fetch_excel_ssl_fallback env7 ("u") ("certificate verify failed") (by decide)).2.2⟩

/-! ### Claims C8, C9, C10 — the request boundary and the report branch -/

/-- Claim C8 (confirmed).  Any exception in the pipeline (loading or
normalizing) and any exception in the dispatch (the title join) is converted at
the `try/except` boundary into the structured `{"error": str(e)}` response, and
an unknown intent yields the structured unknown-intent error response — never
an unhandled crash (in the embedding, `analyze` is a total function into
`Response`). -/
theorem analyze_error_boundary : ∀ (env : String → Except String (List RawRecord)) (req : Request),
    (∀ e, run_pipeline env req = .error e → analyze env req = .error e) ∧
    (∀ view e, run_pipeline env req = .ok view → dispatch req view = .error e →
      analyze env req = .error e) ∧
    (req.intent ≠ "fetch_data" → req.intent ≠ "generate_report" →
      ∀ view, run_pipeline env req = .ok view →
        analyze env req = .error ("未知的 intent: " ++ req.intent)) := by
  intro env req
  refine ⟨fun e h => analyze_pipeline_error env req e h,
    fun view e h hd => analyze_dispatch_error env req view e h hd, ?_⟩
  intro h1 h2 view h
  refine analyze_dispatch_ok env req view _ h ?_
  simp [dispatch, h1, h2]

/-- Claim C8 witness: a failing fetch surfacing as a structured error, and an
unknown intent surfacing as the structured unknown-intent error. -/
theorem analyze_error_boundary_witness :
    analyze envFail (⟨"fetch_data", "all", "", "", 0⟩) = .error ("读取远程文件失败") ∧
    analyze envA (⟨"export_data", "weibo", "", "", 0⟩) =
      .error ("未知的 intent: " ++ "export_data") :=
  ⟨(analyze_error_boundary envFail (⟨"fetch_data", "all", "", "", 0⟩)).1
      ("读取远程文件失败") (by decide),
   (analyze_error_boundary envA (⟨"export_data", "weibo", "", "", 0⟩)).2.2
      (by decide) (by decide)
      ([⟨"weibo", some ("A"), mkRat 5 1⟩, ⟨"weibo", some ("B"), mkRat 3 1⟩]) (by decide)⟩

/-- Claim C9 (confirmed).  On an empty view the report branch answers with the
fixed no-data response, which differs from every structured error response and
from every ordinary report response (their messages differ), so it cannot be
mistaken for a failure or for a real summary of mean 0. -/
theorem report_empty_view_no_data : ∀ (env : String → Except String (List RawRecord))
    (req : Request),
    req.intent = "generate_report" →
    run_pipeline env req = .ok [] →
    analyze env req = .report ("无数据生成报告。") ("") ∧
    (∀ e, (Response.report ("无数据生成报告。") ("")) ≠ .error e) ∧
    (∀ tx, (Response.report ("无数据生成报告。") ("")) ≠ .report ("生成趋势分析报告成功") tx) := by
  intro env req hi h
  refine ⟨?_, fun e => by simp, fun tx => by simp⟩
  refine analyze_dispatch_ok env req ([]) _ h ?_
  simp [dispatch, hi]

/-- Claim C9 witness: all sources empty, report requested, no-data response
returned. -/
theorem report_empty_view_no_data_witness :
    analyze envEmpty (⟨"generate_report", "all", "", "", 0⟩) =
      .report ("无数据生成报告。") ("") :=
  (report_empty_view_no_data envEmpty (⟨"generate_report", "all", "", "", 0⟩) rfl (by decide)).1

/-- Claim C10 (confirmed).  For `generate_report` the request's `limit` is
ignored: responses agree for any two limits, and on a successful run the report
is computed over the first 10 rows of the sorted view — the mean magnitude
truncated to an integer is taken over those rows, and (at most) the first 5 of
their titles are joined into the narrative. -/
theorem report_ignores_limit :
    (∀ (env : String → Except String (List RawRecord)) (p t tp : String) (l1 l2 : Int),
      analyze env (⟨"generate_report", p, t, tp, l1⟩) =
        analyze env (⟨"generate_report", p, t, tp, l2⟩)) ∧
    (∀ (env : String → Except String (List RawRecord)) (req : Request)
      (view : List CleanRecord) (joined : String),
      req.intent = "generate_report" →
      run_pipeline env req = .ok view →
      (view.take 10).isEmpty = false →
      join_titles (((view.take 10).map (fun r => r.title)).take 5) = .ok joined →
      analyze env req = .report ("生成趋势分析报告成功")
        (report_text req (pyInt (listMean ((view.take 10).map (fun r => r.hot)))) joined)) := by
  constructor
  · intro env p t tp l1 l2
    rfl
  · intro env req view joined hi h hne hj
    refine analyze_dispatch_ok env req view _ h ?_
    simp only [List.map_take] at hj
    simp [dispatch, hi, hne, hj]

/-- Claim C10 witness: with limits 7 and 99 the report responses agree, and the
report over a two-row view summarizes exactly those (at most 10) rows with
their (at most 5) titles. -/
theorem report_ignores_limit_witness :
    analyze envA (⟨"generate_report", "weibo", "", "", 7⟩) =
      analyze envA (⟨"generate_report", "weibo", "", "", 99⟩) ∧
    analyze envA (⟨"generate_report", "weibo", "", "", 7⟩) =
      .report ("生成趋势分析报告成功")
        (report_text (⟨"generate_report", "weibo", "", "", 7⟩)
          (pyInt (listMean
            ((([⟨"weibo", some ("A"), mkRat 5 1⟩,
                ⟨"weibo", some ("B"), mkRat 3 1⟩] : List CleanRecord).take 10).map
              (fun r => r.hot))))
          ("A, B")) :=
  ⟨(report_ignores_limit).1 envA ("weibo") ("") ("") 7 99,
   (report_ignores_limit).2 envA (⟨"generate_report", "weibo", "", "", 7⟩)
      ([⟨"weibo", some ("A"), mkRat 5 1⟩, ⟨"weibo", some ("B"), mkRat 3 1⟩]) ("A, B")
      rfl (by decide) (by decide) (by decide)⟩
